import Mathlib

/-!
Verification of the request-defense layer of the DarkWebCartel server.

The definitions below are a shallow embedding of the TypeScript sources
`server/security.ts`, `server/advanced-security.ts`, `server/routes.ts` and
the middleware registration order of `server/index.ts`.  Stateful Express
middleware is modelled as explicit state passing over `SecurityState`;
JavaScript `Map`s become association lists that keep insertion order
(`Map.set` updates in place), timestamps are `Nat` milliseconds, and the
parsed JSON request body is the inductive type `Json`.  Third-party
behaviour that the sources merely configure (the `express-rate-limit`
fixed-window counter, Node's base64 encoding) is modelled from the
libraries' documented semantics where a claim needs it.
-/

namespace DWC

/-! ## List-of-characters string utilities

Lean's built-in `String.splitOn`, `trim`, `startsWith`, `toNat?` are
implemented on byte positions and do not reduce inside the kernel, so the
string processing done by the sources is implemented here on `List Char`.
-/

/-- Does `l` start with `p`?  (`String.prototype.startsWith` / prefix test.) -/
def chStarts : List Char → List Char → Bool
  | _, [] => true
  | [], _ :: _ => false
  | a :: as, b :: bs => a = b && chStarts as bs

/-- Substring containment: does `sub` occur contiguously inside `l`?
(JavaScript `String.prototype.includes`.) -/
def chHasSub (sub : List Char) : List Char → Bool
  | [] => sub.isEmpty
  | a :: rest => chStarts (a :: rest) sub || chHasSub sub rest

/-- `s.includes(sub)` on Lean strings. -/
def strContains (s sub : String) : Bool := chHasSub sub.data s.data

/-- `s.startsWith(p)` on Lean strings. -/
def strStarts (s p : String) : Bool := chStarts s.data p.data

/-- `String.prototype.toLowerCase` (ASCII, which is all the sources compare). -/
def lowerStr (s : String) : String := (s.data.map Char.toLower).asString

/-- Split a character list at every occurrence of separator `sep`. -/
def chSplit (sep : Char) (l : List Char) : List (List Char) :=
  match l with
  | [] => [[]]
  | c :: rest =>
    let r := chSplit sep rest
    if c = sep then [] :: r
    else match r with
      | [] => [[c]]
      | h :: t => (c :: h) :: t

/-- Split a string on a single-character separator (`String.prototype.split`). -/
def strSplit (s : String) (sep : Char) : List String :=
  (chSplit sep s.data).map List.asString

/-- `String.prototype.trim` (ASCII whitespace). -/
def strTrim (s : String) : String :=
  ((s.data.dropWhile Char.isWhitespace).reverse.dropWhile Char.isWhitespace).reverse.asString

/-- Decimal digits to a natural number (caller checks the digits). -/
def digitsToNat (cs : List Char) : Nat :=
  cs.foldl (fun a c => a * 10 + (c.toNat - 48)) 0

/-- Strict decimal parse: nonempty, digits only. -/
def parseDecimal (s : String) : Option Nat :=
  if s.data ≠ [] ∧ s.data.all Char.isDigit then some (digitsToNat s.data) else none

/-- Hexadecimal digit test. -/
def isHexCh (c : Char) : Bool :=
  c.isDigit || ('a' ≤ c && c ≤ 'f') || ('A' ≤ c && c ≤ 'F')

/-- Value of one hexadecimal digit. -/
def hexVal (c : Char) : Nat :=
  if c.isDigit then c.toNat - 48
  else if 'a' ≤ c && c ≤ 'f' then c.toNat - 87
  else c.toNat - 55

/-- Hexadecimal digits to a natural number. -/
def hexToNat (cs : List Char) : Nat := cs.foldl (fun a c => a * 16 + hexVal c) 0

/-! ## Association lists standing in for JavaScript `Map`s

`Map.set` overwrites in place (iteration keeps the original insertion
position); `Map.delete` removes the entry; `Map.get` looks the key up.
-/

/-- `Map.get`. -/
def lookupKey {α : Type} (m : List (String × α)) (k : String) : Option α :=
  match m with
  | [] => none
  | kv :: rest => if kv.1 = k then some kv.2 else lookupKey rest k

/-- `Map.set`: overwrite in place, or append a fresh entry at the end. -/
def setKey {α : Type} (m : List (String × α)) (k : String) (v : α) : List (String × α) :=
  match m with
  | [] => [(k, v)]
  | kv :: rest => if kv.1 = k then (k, v) :: rest else kv :: setKey rest k v

/-- `Map.delete` (dropping the entry, keeping the order of the rest). -/
def eraseKey {α : Type} (m : List (String × α)) (k : String) : List (String × α) :=
  m.filter (fun kv => decide (kv.1 ≠ k))

/-! ## The parsed JSON body -/

/-- A parsed JSON value, the shape `express.json()` hands to the middleware
as `req.body`. -/
inductive Json where
  | null
  | bool (b : Bool)
  | num (n : Int)
  | str (s : String)
  | arr (elems : List Json)
  | obj (fields : List (String × Json))

/-- `typeof v === 'object' && v !== null` — JavaScript containers are the
objects and the arrays. -/
def isContainerJson : Json → Bool
  | .arr _ => true
  | .obj _ => true
  | _ => false

/-- `Object.values` of a container (elements of an array, field values of an
object); primitives have none. -/
def jsonKids : Json → List Json
  | .arr es => es
  | .obj fs => fs.map Prod.snd
  | _ => []

/-- Minimal `JSON.stringify` string escaping (quote, backslash and the common
control characters; the sources only ever stringify plain ASCII text). -/
def escCh (c : Char) : String :=
  if c = '"' then "\\\""
  else if c = '\\' then "\\\\"
  else if c = '\n' then "\\n"
  else if c = '\r' then "\\r"
  else if c = '\t' then "\\t"
  else String.singleton c

/-- `JSON.stringify` of a string value. -/
def escapeJsonString (s : String) : String :=
  "\"" ++ String.join (s.data.map escCh) ++ "\""

mutual

/-- `JSON.stringify`, used by `rapidRepeatDetection` for the request
signature and by `detectSuspiciousPatterns` for the scanned text. -/
def jsonStringify : Json → String
  | .null => "null"
  | .bool true => "true"
  | .bool false => "false"
  | .num n => toString n
  | .str s => escapeJsonString s
  | .arr es => "[" ++ stringifyElems es ++ "]"
  | .obj fs => "\x7b" ++ stringifyFields fs ++ "\x7d"

/-- Comma-joined stringification of array elements. -/
def stringifyElems : List Json → String
  | [] => ""
  | [e] => jsonStringify e
  | e :: rest => jsonStringify e ++ "," ++ stringifyElems rest

/-- Comma-joined stringification of object fields. -/
def stringifyFields : List (String × Json) → String
  | [] => ""
  | [f] => escapeJsonString f.1 ++ ":" ++ jsonStringify f.2
  | f :: rest => escapeJsonString f.1 ++ ":" ++ jsonStringify f.2 ++ "," ++ stringifyFields rest

end

/-! ## `getObjectDepth` (advanced-security.ts lines 251-257)

```js
function getObjectDepth(obj, depth = 0) {
  if (typeof obj !== 'object' || obj === null || depth > 20) return depth;
  const depths = Object.values(obj).map(value => getObjectDepth(value, depth + 1));
  return depths.length > 0 ? Math.max(...depths) : depth;
}
```

The `depth > 20` early exit bounds the recursion depth: every recursive call
is made at `depth + 1` and no call is made once `depth > 20`, so at most
`21 - depth` further levels of calls can happen.  We realize exactly that
bound as structural recursion on the remaining allowance `21 - depth`
(`fuel`), with the guard branch as the base case; for every reachable call
the two presentations coincide.  The graph version below makes the same
function total on arbitrary — even cyclic — object graphs, which is what
the termination claim is about.
-/

/-- Fuel-indexed body of `getObjectDepth` on parsed JSON trees.
`fuel = 0` is the `depth > 20` guard firing. -/
def depthGo : Nat → Json → Nat → Nat
  | 0, _, depth => depth
  | fuel + 1, j, depth =>
    if isContainerJson j = false then depth
    else
      let ds := (jsonKids j).map (fun c => depthGo fuel c (depth + 1))
      if ds.isEmpty then depth else ds.foldl max 0

/-- `getObjectDepth(obj, depth)` on a parsed JSON tree. -/
def getObjectDepth (j : Json) (depth : Nat) : Nat :=
  depthGo (21 - depth) j depth

/-- A heap of JavaScript values: each node is a container or not, and has a
list of child nodes.  Cycles are allowed — nothing forces the child relation
to be well-founded, which is the point of the termination claim. -/
structure ObjGraph where
  isCont : Nat → Bool
  kids : Nat → List Nat

/-- Fuel-indexed body of `getObjectDepth` on an arbitrary object graph. -/
def depthGoG (g : ObjGraph) : Nat → Nat → Nat → Nat
  | 0, _, depth => depth
  | fuel + 1, node, depth =>
    if g.isCont node = false then depth
    else
      let ds := (g.kids node).map (fun c => depthGoG g fuel c (depth + 1))
      if ds.isEmpty then depth else ds.foldl max 0

/-- `getObjectDepth` run over an arbitrary (possibly cyclic) object graph. -/
def getObjectDepthG (g : ObjGraph) (node : Nat) (depth : Nat) : Nat :=
  depthGoG g (21 - depth) node depth

mutual

/-- The nesting depth of a JSON value as the specification words it: a
non-container value has depth equal to its ancestor count (contributing 0 of
its own), an empty container contributes the depth it sits at, and a
non-empty container adds one level above the deepest of its children. -/
def trueDepth : Json → Nat
  | .null => 0
  | .bool _ => 0
  | .num _ => 0
  | .str _ => 0
  | .arr es => trueDepthElems es
  | .obj fs => trueDepthFields fs

/-- One plus the deepest element depth, or 0 for an empty array. -/
def trueDepthElems : List Json → Nat
  | [] => 0
  | e :: rest => max (1 + trueDepth e) (trueDepthElems rest)

/-- One plus the deepest field-value depth, or 0 for an empty object. -/
def trueDepthFields : List (String × Json) → Nat
  | [] => 0
  | f :: rest => max (1 + trueDepth f.2) (trueDepthFields rest)

end

/-! ## Cloudflare CIDR validation (security.ts lines 6-37) -/

/-- The IPv4 ranges of `CLOUDFLARE_IPV4_RANGES`. -/
def cloudflareIPv4Ranges : List String :=
  ["173.245.48.0/20", "103.21.244.0/22", "103.22.200.0/22", "103.31.4.0/22",
   "141.101.64.0/18", "108.162.192.0/18", "190.93.240.0/20", "188.114.96.0/20",
   "197.234.240.0/22", "198.41.128.0/17", "162.158.0.0/15", "104.16.0.0/13",
   "104.24.0.0/14", "172.64.0.0/13", "131.0.72.0/22"]

/-- The IPv6 ranges of `CLOUDFLARE_IPV6_RANGES`. -/
def cloudflareIPv6Ranges : List String :=
  ["2606:4700::/32", "2803:f800::/32", "2405:b500::/32",
   "2405:8100::/32", "2a06:98c0::/29", "2c0f:f248::/32"]

/-- Parse a dotted-quad IPv4 address to its 32-bit value. -/
def parseIPv4 (s : String) : Option Nat :=
  match (strSplit s '.').mapM parseDecimal with
  | some [a, b, c, d] =>
    if a ≤ 255 ∧ b ≤ 255 ∧ c ≤ 255 ∧ d ≤ 255 then
      some (((a * 256 + b) * 256 + c) * 256 + d)
    else none
  | _ => none

/-- Parse one IPv6 hex group (1-4 hex digits). -/
def parseHexGroup (s : String) : Option Nat :=
  if s.data ≠ [] ∧ s.data.length ≤ 4 ∧ s.data.all isHexCh then some (hexToNat s.data)
  else none

/-- Fold 16-bit groups into a 128-bit value. -/
def combineGroups (gs : List Nat) : Nat := gs.foldl (fun a g => a * 65536 + g) 0

/-- Split a character list on every occurrence of `::`
(`String.prototype.split("::")`). -/
def splitDC : List Char → List (List Char)
  | [] => [[]]
  | ':' :: ':' :: rest => [] :: splitDC rest
  | c :: rest =>
    match splitDC rest with
    | [] => [[c]]
    | h :: t => (c :: h) :: t

/-- Parse an IPv6 address, handling one `::` zero-compression. -/
def parseIPv6 (s : String) : Option Nat :=
  match (splitDC s.data).map List.asString with
  | [one] =>
    match (strSplit one ':').mapM parseHexGroup with
    | some gs => if gs.length = 8 then some (combineGroups gs) else none
    | none => none
  | [l, r] =>
    let ls := if l = "" then [] else strSplit l ':'
    let rs := if r = "" then [] else strSplit r ':'
    match ls.mapM parseHexGroup, rs.mapM parseHexGroup with
    | some lg, some rg =>
      if lg.length + rg.length ≤ 7 then
        some (combineGroups (lg ++ List.replicate (8 - lg.length - rg.length) 0 ++ rg))
      else none
    | _, _ => none
  | _ => none

/-- CIDR membership for IPv4: same `bits`-long network half. -/
def inRangeV4 (ip : String) (cidr : String) : Bool :=
  match strSplit cidr '/' with
  | [base, bits] =>
    match parseIPv4 ip, parseIPv4 base, parseDecimal bits with
    | some ipN, some baseN, some b =>
      if b ≤ 32 then ipN / 2 ^ (32 - b) = baseN / 2 ^ (32 - b) else false
    | _, _, _ => false
  | _ => false

/-- CIDR membership for IPv6. -/
def inRangeV6 (ip : String) (cidr : String) : Bool :=
  match strSplit cidr '/' with
  | [base, bits] =>
    match parseIPv6 ip, parseIPv6 base, parseDecimal bits with
    | some ipN, some baseN, some b =>
      if b ≤ 128 then ipN / 2 ^ (128 - b) = baseN / 2 ^ (128 - b) else false
    | _, _, _ => false
  | _ => false

/-- `ipRangeCheck(ip, ranges)` of the `ip-range-check` package, modelled for
each address family. -/
def ipRangeCheckV4 (ip : String) (ranges : List String) : Bool := ranges.any (inRangeV4 ip)

/-- `ipRangeCheck` over the IPv6 range list. -/
def ipRangeCheckV6 (ip : String) (ranges : List String) : Bool := ranges.any (inRangeV6 ip)

/-- `isCloudflareIP` (security.ts lines 20-37): loopback bypass, then the
address-family-appropriate CIDR check. -/
def isCloudflareIP (ip : String) : Bool :=
  if ip = "127.0.0.1" ∨ ip = "localhost" ∨ ip = "::1" ∨ ip = "::ffff:127.0.0.1" then true
  else if strContains ip "." then ipRangeCheckV4 ip cloudflareIPv4Ranges
  else if strContains ip ":" then ipRangeCheckV6 ip cloudflareIPv6Ranges
  else false

end DWC

namespace DWC

/-! ## Requests, responses and the shared security state -/

/-- An inbound HTTP request as the middleware sees it: header names are
lower-cased (as Node delivers them), `body` is the JSON value produced by
`express.json()` when one was parsed, and `contentLength` is the numeric
value of the `content-length` header (`parseInt(h ∥ '0')`). -/
structure Req where
  method : String
  path : String
  headers : List (String × String)
  remoteAddress : Option String
  body : Option Json
  contentLength : Nat
  query : List (String × String)

/-- A blocked-IP record as listed by `getBlockedIPs`. -/
structure BlockedEntry where
  ip : String
  expiresAt : Nat
  reason : String
deriving Repr, DecidableEq

/-- The JSON (or text) body of a produced response, one constructor per
response shape the security layer emits. -/
inductive RespBody where
  | text (s : String)
  | errJson (error : String)
  | errRetry (error : String) (retryAfter : Nat)
  | unblockMsg (success : Bool) (message : String)
  | blockedList (total : Nat) (ips : List BlockedEntry)
deriving Repr, DecidableEq

/-- An HTTP response: status code and body. -/
structure Resp where
  status : Nat
  body : RespBody
deriving Repr, DecidableEq

/-- The per-origin request-window counter
(`IN_MEMORY_REQUEST_TRACKING` values). -/
structure Tracker where
  count : Nat
  firstRequest : Nat
  violations : Nat
  fingerprint : Option String
deriving Repr, DecidableEq

/-- All mutable module-level state of the two security modules, plus a log
of every `blockIP` call `(ip, durationMinutes, reason)` and of every flood
warning, so the theorems can count side effects.  `redisAvailable` is
whether a Redis client was configured and reachable; `redisBlocked` holds
the `blocked:ip` keys with their expiry instants (Redis's TTL removes a key
exactly at its expiry, so a read at `now` sees it only while `now <
expiry`). -/
structure SecurityState where
  redisAvailable : Bool
  redisBlocked : List (String × Nat)
  memBlocked : List (String × Nat)
  tracking : List (String × Tracker)
  recent : List (String × Nat)
  rlHits : List (String × Nat)
  rlWindowStart : Nat
  banLog : List (String × Nat × String)
  warnLog : List String
deriving Repr, DecidableEq

/-- Outcome of one middleware layer: pass the request on (`next(…)`) or end
the response right there. -/
inductive StepOut where
  | next (st : SecurityState)
  | halt (resp : Resp) (st : SecurityState)
deriving Repr, DecidableEq

/-- The state a step left behind. -/
def stateOf : StepOut → SecurityState
  | .next st => st
  | .halt _ st => st

/-- Header lookup (`req.headers[name]`). -/
def headerVal (req : Req) (name : String) : Option String := lookupKey req.headers name

/-- JavaScript truthiness of a possibly-missing header string: `undefined`
and the empty string are falsy. -/
def truthy (o : Option String) : Bool := o.getD "" != ""

/-- `req.socket.remoteAddress ∥ 'unknown'`. -/
def remoteIp (req : Req) : String := req.remoteAddress.getD "unknown"

/-- `getClientIp` (security.ts lines 40-64): trust the `cf-connecting-ip`
or first `x-forwarded-for` entry only when the transport-layer peer is a
Cloudflare address (or loopback); otherwise the socket address is the
origin. -/
def getClientIp (req : Req) : String :=
  let remote := remoteIp req
  if isCloudflareIP remote then
    let cf := (headerVal req "cf-connecting-ip").getD ""
    if cf != "" then cf
    else
      let fwd := (headerVal req "x-forwarded-for").getD ""
      if fwd != "" then strTrim ((strSplit fwd ',').headD "")
      else remote
  else remote

/-- `trustCloudflareProxy` (security.ts lines 67-84): a non-Cloudflare peer
presenting forwarded-IP headers is rejected with 403 before anything else
runs. -/
def trustCloudflareProxy (st : SecurityState) (_now : Nat) (req : Req) : StepOut :=
  let remote := remoteIp req
  if !isCloudflareIP remote &&
      (truthy (headerVal req "cf-connecting-ip") || truthy (headerVal req "x-forwarded-for")) then
    .halt ⟨403, .errJson "Access denied"⟩ st
  else .next st

/-- The state effect of `blockIP(ip, durationMinutes, reason)`
(advanced-security.ts lines 19-43): log the call, then write the expiry
into Redis when available, else into the in-memory map. -/
def blockIPState (st : SecurityState) (now : Nat) (ip : String) (durationMinutes : Nat)
    (reason : String) : SecurityState :=
  let expiry := now + durationMinutes * 60000
  let st1 := { st with banLog := st.banLog ++ [(ip, durationMinutes, reason)] }
  if st1.redisAvailable then { st1 with redisBlocked := setKey st1.redisBlocked ip expiry }
  else { st1 with memBlocked := setKey st1.memBlocked ip expiry }

/-- `Math.ceil((expiry - now) / 60000)` for `expiry ≥ now`. -/
def remainingMinutes (expiry now : Nat) : Nat := (expiry - now + 59999) / 60000

/-- Body text of the ban-gate rejection. -/
def blockedMsg : String :=
  "Access forbidden. Your IP has been temporarily blocked due to suspicious activity."

/-- `ipBlockingMiddleware` (advanced-security.ts lines 73-101): reject a
banned origin with 403 and the remaining minutes; the in-memory check
lazily deletes an expired record (`isIPBlockedMemory`). -/
def ipBlockingMiddleware (st : SecurityState) (now : Nat) (req : Req) : StepOut :=
  let ip := getClientIp req
  if st.redisAvailable then
    match lookupKey st.redisBlocked ip with
    | some e =>
      if now < e then .halt ⟨403, .errRetry blockedMsg (remainingMinutes e now)⟩ st
      else .next st
    | none => .next st
  else
    match lookupKey st.memBlocked ip with
    | some e =>
      if now > e then .next { st with memBlocked := eraseKey st.memBlocked ip }
      else .halt ⟨403, .errRetry blockedMsg (remainingMinutes e now)⟩ st
    | none => .next st

/-- `httpMethodValidation` (advanced-security.ts lines 259-270). -/
def allowedMethods : List String :=
  ["GET", "POST", "PUT", "PATCH", "DELETE", "HEAD", "OPTIONS"]

/-- Reject (405) and ban 15 minutes any request whose verb is not in the
allow list. -/
def httpMethodValidation (st : SecurityState) (now : Nat) (req : Req) : StepOut :=
  if allowedMethods.contains req.method then .next st
  else
    .halt ⟨405, .errJson "Method not allowed"⟩
      (blockIPState st now (getClientIp req) 15 ("Invalid HTTP method: " ++ req.method))

/-- The traversal tokens of `pathTraversalDetection`. -/
def traversalTokens : List String :=
  ["../", "..\\", "%2e%2e", "%252e", "%c0%ae", "%c1%9c"]

/-- `pathTraversalDetection` (advanced-security.ts lines 272-284): 400 and a
180-minute ban when the lower-cased path contains a traversal token. -/
def pathTraversalDetection (st : SecurityState) (now : Nat) (req : Req) : StepOut :=
  if traversalTokens.any (fun t => strContains (lowerStr req.path) t) then
    .halt ⟨400, .errJson "Invalid request path"⟩
      (blockIPState st now (getClientIp req) 180 "Path traversal attack attempt")
  else .next st

/-- `payloadBombProtection` (advanced-security.ts lines 226-249): for
POST/PUT/PATCH, 413 + 30-minute ban past 10240 declared bytes, then 400 +
60-minute ban when the parsed body (a JavaScript object, i.e. a JSON
container) nests deeper than 10 levels. -/
def payloadBombProtection (st : SecurityState) (now : Nat) (req : Req) : StepOut :=
  if req.method = "POST" ∨ req.method = "PUT" ∨ req.method = "PATCH" then
    if req.contentLength > 10240 then
      .halt ⟨413, .errJson "Payload too large"⟩
        (blockIPState st now (getClientIp req) 30 "Payload bomb attempt")
    else
      match req.body with
      | some b =>
        if isContainerJson b then
          if getObjectDepth b 0 > 10 then
            .halt ⟨400, .errJson "Invalid request structure"⟩
              (blockIPState st now (getClientIp req) 60 "Deeply nested payload (potential attack)")
          else .next st
        else .next st
      | none => .next st
  else .next st

/-- Does a string hold a raw CR or LF byte? -/
def hasCRLF (s : String) : Bool := s.data.any (fun c => c = '\r' || c = '\n')

/-- `req.path.startsWith('/api')`. -/
def startsWithApi (req : Req) : Bool := chStarts req.path.data "/api".data

/-- `headerValidation` (advanced-security.ts lines 323-348): on API-prefixed
paths only, 400 and a 360-minute ban when any header value carries a raw CR
or LF. -/
def headerValidation (st : SecurityState) (now : Nat) (req : Req) : StepOut :=
  if !startsWithApi req then .next st
  else if req.headers.any (fun kv => hasCRLF kv.2) then
    .halt ⟨400, .errJson "Invalid request headers"⟩
      (blockIPState st now (getClientIp req) 360 "HTTP header injection attempt")
  else .next st

/-- `connectionFloodDetection` (advanced-security.ts lines 163-198).  The
tracker object fetched from the map is mutated in place, so its updates
survive even on the rejection path, where `Map.set` is not reached: a
rejection can only happen with `count ≥ 31`, hence with a tracker that was
already stored, and for a stored tracker in-place mutation and `setKey`
coincide. -/
def connectionFloodDetection (st : SecurityState) (now : Nat) (req : Req) : StepOut :=
  if !startsWithApi req then .next st
  else
    let ip := getClientIp req
    let tr0 := (lookupKey st.tracking ip).getD ⟨0, now, 0, none⟩
    let tr1 := if now - tr0.firstRequest > 10000 then
        { tr0 with count := 0, firstRequest := now, violations := 0 }
      else tr0
    let tr2 := { tr1 with count := tr1.count + 1 }
    if tr2.count > 30 then
      let tr3 := { tr2 with violations := tr2.violations + 1 }
      let dur := min (tr3.violations * 30) 1440
      .halt ⟨429, .errJson "Request flood detected. IP blocked."⟩
        (blockIPState { st with tracking := setKey st.tracking ip tr3 } now ip dur
          ("Connection flood: " ++ toString tr3.count ++ " requests in 10 seconds"))
    else
      let st1 := if tr2.count > 20 then { st with warnLog := st.warnLog ++ [ip] } else st
      .next { st1 with tracking := setKey st1.tracking ip tr2 }

/-- The request signature of `rapidRepeatDetection`:
`` `${method}:${path}:${JSON.stringify(req.body || {})}` ``. -/
def requestSignature (req : Req) : String :=
  req.method ++ ":" ++ req.path ++ ":" ++ jsonStringify (req.body.getD (.obj []))

/-- The size-bounded prune of `IN_MEMORY_PATTERNS`: past 10000 entries,
entries older than 60 seconds are dropped. -/
def pruneRecent (m : List (String × Nat)) (now : Nat) : List (String × Nat) :=
  if m.length > 10000 then m.filter (fun kv => decide (¬ kv.2 < now - 60000)) else m

/-- `rapidRepeatDetection` (advanced-security.ts lines 286-321): an
identical `(origin, method, path, body)` signature repeating within 1000 ms
bumps the origin's violation counter; past 5 violations, 429 and a
60-minute ban.  As in flood detection, the tracker aliasing makes the
counter bump stick on the rejection path, while the signature timestamp is
only written on the non-rejecting paths. -/
def rapidRepeatDetection (st : SecurityState) (now : Nat) (req : Req) : StepOut :=
  if !startsWithApi req then .next st
  else
    let ip := getClientIp req
    let key := ip ++ ":" ++ requestSignature req
    let last := (lookupKey st.recent key).getD 0
    if now - last < 1000 then
      let tr0 := (lookupKey st.tracking ip).getD ⟨0, now, 0, none⟩
      let tr1 := { tr0 with violations := tr0.violations + 1 }
      if tr1.violations > 5 then
        .halt ⟨429, .errJson "Too many identical requests"⟩
          (blockIPState { st with tracking := setKey st.tracking ip tr1 } now ip 60
            "Rapid repeated identical requests (bot behavior)")
      else
        let st1 := { st with tracking := setKey st.tracking ip tr1 }
        let st2 := { st1 with recent := pruneRecent (setKey st1.recent key now) now }
        .next st2
    else
      .next { st with recent := pruneRecent (setKey st.recent key now) now }

/-- The base64 alphabet. -/
def b64Char (n : Nat) : Char :=
  "ABCDEFGHIJKLMNOPQRSTUVWXYZabcdefghijklmnopqrstuvwxyz0123456789+/".data.getD n 'A'

/-- Standard base64 of a byte list (`Buffer.prototype.toString('base64')`). -/
def base64Chunks : List Nat → String
  | [] => ""
  | [a] => (String.mk [b64Char (a / 4), b64Char (a % 4 * 16)]) ++ "=="
  | [a, b] =>
    (String.mk [b64Char (a / 4), b64Char (a % 4 * 16 + b / 16), b64Char (b % 16 * 4)]) ++ "="
  | a :: b :: c :: rest =>
    (String.mk [b64Char (a / 4), b64Char (a % 4 * 16 + b / 16),
      b64Char (b % 16 * 4 + c / 64), b64Char (c % 64)]) ++ base64Chunks rest

/-- UTF-8 bytes of one character (`Buffer.from(string)`). -/
def utf8Bytes (c : Char) : List Nat :=
  let n := c.toNat
  if n < 128 then [n]
  else if n < 2048 then [192 + n / 64, 128 + n % 64]
  else if n < 65536 then [224 + n / 4096, 128 + n / 64 % 64, 128 + n % 64]
  else [240 + n / 262144, 128 + n / 4096 % 64, 128 + n / 64 % 64, 128 + n % 64]

/-- `generateRequestFingerprint` (advanced-security.ts lines 9-17): base64
of the joined header tuple, truncated to 32 characters. -/
def generateRequestFingerprint (req : Req) : String :=
  let comps := [(headerVal req "user-agent").getD "", (headerVal req "accept-language").getD "",
    (headerVal req "accept-encoding").getD "", (headerVal req "accept").getD ""]
  (((base64Chunks ((String.intercalate "|" comps).data.map utf8Bytes).flatten).data).take 32).asString

/-- `fingerprintAnomalyDetection` (advanced-security.ts lines 200-224): on
API paths, a stored tracker whose last fingerprint differs from the current
one gets a violation; past 3 violations, 403 and a 120-minute ban (on that
path the fingerprint is not updated — the handler returns before the
assignment — but the violation bump sticks through the aliased tracker). -/
def fingerprintAnomalyDetection (st : SecurityState) (now : Nat) (req : Req) : StepOut :=
  if !startsWithApi req then .next st
  else
    let ip := getClientIp req
    let fp := generateRequestFingerprint req
    match lookupKey st.tracking ip with
    | some tr =>
      if (match tr.fingerprint with | some old => old != "" && old != fp | none => false) then
        let tr1 := { tr with violations := tr.violations + 1 }
        if tr1.violations > 3 then
          .halt ⟨403, .errJson "Suspicious activity detected"⟩
            (blockIPState { st with tracking := setKey st.tracking ip tr1 } now ip 120
              "Multiple fingerprint changes detected (bot behavior)")
        else
          .next { st with tracking := setKey st.tracking ip { tr1 with fingerprint := some fp } }
      else
        .next { st with tracking := setKey st.tracking ip { tr with fingerprint := some fp } }
    | none => .next st

/-- `globalRateLimit` (security.ts lines 87-98), modelled from the
`express-rate-limit` fixed-window memory store the repository configures
(the library itself lives outside the repository): skip non-API paths, key
by the resolved client IP, reset all hits when the 15-minute window has
elapsed, and answer 429 past 100 hits. -/
def globalRateLimit (st : SecurityState) (now : Nat) (req : Req) : StepOut :=
  if !startsWithApi req then .next st
  else
    let key := getClientIp req
    let st1 := if now ≥ st.rlWindowStart + 900000 then
        { st with rlHits := [], rlWindowStart := now }
      else st
    let hits := (lookupKey st1.rlHits key).getD 0 + 1
    let st2 := { st1 with rlHits := setKey st1.rlHits key hits }
    if hits > 100 then
      .halt ⟨429, .errJson "Too many requests from this IP, please try again later."⟩ st2
    else .next st2

end DWC

namespace DWC

/-! ## `detectSuspiciousPatterns` (security.ts lines 154-186)

The two fixed regular expressions are realized as explicit scanners:
`/(\bUNION\b|\bSELECT\b|\bDROP\b|\bINSERT\b|\bDELETE\b|\bUPDATE\b|--|\bOR\b\s+\d+\s*=\s*\d+)/i`
and `/<script|javascript:|onerror=|onload=/i`, both case-insensitive, run
over `JSON.stringify({...req.query, ...req.body})`.
-/

/-- A regex word character (`\w`): alphanumeric or underscore. -/
def isWordCh (c : Char) : Bool := c.isAlphanum || c = '_'

/-- `\b` on the left of a match: start of text or a non-word character. -/
def boundaryB : Option Char → Bool
  | none => true
  | some c => !isWordCh c

/-- `\b` on the right of a match: end of text or a non-word character. -/
def boundaryA : List Char → Bool
  | [] => true
  | c :: _ => !isWordCh c

/-- Try predicate `p` at every position of the text, tracking the previous
character for word boundaries. -/
def scanPos (p : Option Char → List Char → Bool) (prev : Option Char) : List Char → Bool
  | [] => p prev []
  | c :: rest => p prev (c :: rest) || scanPos p (some c) rest

/-- Case-insensitive `\bkw\b` search (`kw` given in lower case). -/
def hasWordKw (s : String) (kw : String) : Bool :=
  scanPos
    (fun prev l => boundaryB prev && chStarts l kw.data && boundaryA (l.drop kw.data.length))
    none (lowerStr s).data

/-- A regex whitespace character (`\s`). -/
def isWsCh (c : Char) : Bool :=
  c = ' ' || c = '\t' || c = '\n' || c = '\r' || c = '\x0b' || c = '\x0c'

/-- Match `\s+` at the head, returning the remainder. -/
def wsPlus : List Char → Option (List Char)
  | c :: rest => if isWsCh c then some (rest.dropWhile isWsCh) else none
  | [] => none

/-- Match `\d+` at the head, returning the remainder. -/
def digitsPlus : List Char → Option (List Char)
  | c :: rest => if c.isDigit then some (rest.dropWhile Char.isDigit) else none
  | [] => none

/-- Match `\s+\d+\s*=\s*\d+` at the head (what follows a word-bounded `or`). -/
def orEqAt (l : List Char) : Bool :=
  match wsPlus l with
  | none => false
  | some l1 =>
    match digitsPlus l1 with
    | none => false
    | some l2 =>
      match l2.dropWhile isWsCh with
      | '=' :: l3 => (digitsPlus (l3.dropWhile isWsCh)).isSome
      | _ => false

/-- The `\bOR\b\s+\d+\s*=\s*\d+` alternative. -/
def hasOrEq (s : String) : Bool :=
  scanPos
    (fun prev l => boundaryB prev &&
      (match l with | 'o' :: 'r' :: rest => orEqAt rest | _ => false))
    none (lowerStr s).data

/-- The SQL-injection regex. -/
def sqlSuspicious (s : String) : Bool :=
  hasWordKw s "union" || hasWordKw s "select" || hasWordKw s "drop" ||
  hasWordKw s "insert" || hasWordKw s "delete" || hasWordKw s "update" ||
  strContains s "--" || hasOrEq s

/-- The XSS regex. -/
def xssSuspicious (s : String) : Bool :=
  let low := lowerStr s
  strContains low "<script" || strContains low "javascript:" ||
  strContains low "onerror=" || strContains low "onload="

/-- JavaScript object spread `{...base, ...extra}`: later keys overwrite in
place, fresh keys append. -/
def overwriteMerge (base extra : List (String × Json)) : List (String × Json) :=
  extra.foldl (fun acc kv => setKey acc kv.1 kv.2) base

/-- `{...req.query, ...req.body}` (query values are strings; a non-object
body spreads no enumerable string keys). -/
def mergedParams (req : Req) : Json :=
  let qf : List (String × Json) := req.query.map (fun kv => (kv.1, .str kv.2))
  let bf : List (String × Json) := match req.body with | some (.obj fs) => fs | _ => []
  .obj (overwriteMerge qf bf)

/-- `detectSuspiciousPatterns`: 400 on a SQL or XSS pattern match, with no
ban — the only rejecting detector that does not ban. -/
def detectSuspiciousPatterns (st : SecurityState) (_now : Nat) (req : Req) : StepOut :=
  let allParams := jsonStringify (mergedParams req)
  if sqlSuspicious allParams then .halt ⟨400, .errJson "Invalid request parameters"⟩ st
  else if xssSuspicious allParams then .halt ⟨400, .errJson "Invalid request parameters"⟩ st
  else .next st

/-! ## The middleware chain (index.ts lines 27-135)

Layers that can never end a request on their own — helmet's response
headers, the body parsers, `mongoSanitize`, `hpp`, the request-timeout arm,
the `slowDown` speed limiter (it only delays) and the logging layer — pass
through and are not listed.  The rejection-capable layers appear in their
registration order.
-/

/-- Feed a step the outcome so far: a response already sent stops the chain. -/
def runStep (f : SecurityState → Nat → Req → StepOut) (r : StepOut) (now : Nat) (req : Req) :
    StepOut :=
  match r with
  | .halt resp st => .halt resp st
  | .next st => f st now req

/-- The rejection-capable middleware layers in registration order. -/
def securityChain : List (SecurityState → Nat → Req → StepOut) :=
  [trustCloudflareProxy, ipBlockingMiddleware, httpMethodValidation, pathTraversalDetection,
   payloadBombProtection, headerValidation, connectionFloodDetection, rapidRepeatDetection,
   fingerprintAnomalyDetection, globalRateLimit, detectSuspiciousPatterns]

/-- Run the whole middleware chain on one request. -/
def runChain (st : SecurityState) (now : Nat) (req : Req) : StepOut :=
  securityChain.foldl (fun r f => runStep f r now req) (.next st)

/-! ## Routes (routes.ts) and the honeypot trap set (advanced-security.ts 138-161) -/

/-- The honeypot path catalogue of `setupHoneypot`. -/
def honeypotPaths : List String :=
  ["/wp-admin", "/wp-login.php", "/wp-config.php", "/xmlrpc.php",
   "/admin", "/administrator", "/admin.php",
   "/phpmyadmin", "/.env", "/.env.production", "/.git/config",
   "/config.php", "/configuration.php",
   "/api/swagger", "/swagger", "/swagger.json", "/swagger.yaml",
   "/swagger/v1/swagger.json", "/swagger/v2/swagger.json",
   "/api-docs", "/api/docs", "/docs", "/graphql", "/api/graphql",
   "/v1/api-docs", "/v2/api-docs", "/openapi.json", "/api.json",
   "/backup", "/backup.sql", "/backup.zip", "/database.sql",
   "/.git", "/.svn", "/.htaccess", "/web.config",
   "/server-status", "/server-info"]

/-- `getBlockedIPs` (advanced-security.ts lines 124-136): with Redis
configured nothing is listed at all; otherwise the still-live in-memory
records, each with the constant reason text. -/
def getBlockedIPs (st : SecurityState) (now : Nat) : List BlockedEntry :=
  if st.redisAvailable then []
  else
    (st.memBlocked.filter (fun kv => decide (kv.2 > now))).map
      (fun kv => ⟨kv.1, kv.2, "Security violation"⟩)

/-- `unblockIP` (advanced-security.ts lines 103-122): delete from Redis
first (a hit there answers true); else fall through to the in-memory map.
Redis's `DEL` only counts a key its TTL has not already removed. -/
def unblockIPState (st : SecurityState) (now : Nat) (ip : String) : Bool × SecurityState :=
  if st.redisAvailable then
    match lookupKey st.redisBlocked ip with
    | some e =>
      if now < e then (true, { st with redisBlocked := eraseKey st.redisBlocked ip })
      else
        if (lookupKey st.memBlocked ip).isSome then
          (true, { st with redisBlocked := eraseKey st.redisBlocked ip,
                           memBlocked := eraseKey st.memBlocked ip })
        else (false, { st with redisBlocked := eraseKey st.redisBlocked ip })
    | none =>
      if (lookupKey st.memBlocked ip).isSome then
        (true, { st with memBlocked := eraseKey st.memBlocked ip })
      else (false, st)
  else
    if (lookupKey st.memBlocked ip).isSome then
      (true, { st with memBlocked := eraseKey st.memBlocked ip })
    else (false, st)

/-- Environment configuration the route layer reads. -/
structure Env where
  adminKey : Option String

/-- Read a string field of the JSON body (`const { ip, adminKey } = req.body`). -/
def bodyStrField (req : Req) (name : String) : Option String :=
  match req.body with
  | some (.obj fs) =>
    match lookupKey fs name with
    | some (.str s) => some s
    | _ => none
  | _ => none

/-- The `POST /api/security/unblock` handler (routes.ts lines 99-114).

The source reads `const success = unblockIP(ip);` **without** `await`:
`unblockIP` is `async`, so `success` holds a `Promise` object, and a
`Promise` is always truthy in `if (success)`.  The deletion inside
`unblockIP` still runs, but the handler always takes the success branch,
whatever boolean the promise later resolves to.  The model keeps the
deletion (`unblockIPState`) and hard-codes the truthiness test to `true`,
exactly as the un-awaited promise behaves. -/
def unblockRoute (env : Env) (st : SecurityState) (now : Nat) (req : Req) :
    Resp × SecurityState :=
  let ip := (bodyStrField req "ip").getD ""
  let adminKey := bodyStrField req "adminKey"
  if adminKey ≠ env.adminKey then (⟨403, .errJson "Unauthorized"⟩, st)
  else
    let st1 := (unblockIPState st now ip).2
    let promiseTruthy := true
    if promiseTruthy then (⟨200, .unblockMsg true ("IP " ++ ip ++ " unblocked")⟩, st1)
    else (⟨200, .unblockMsg false ("IP " ++ ip ++ " was not blocked")⟩, st1)

/-- The route layer in registration order (routes.ts via `registerRoutes`,
then the honeypot traps of `setupHoneypot`, then the static catch-all).
The appeal route's captcha/webhook work is an external collaborator and is
represented by a plain success response — no claim routes there. -/
def routeDispatch (env : Env) (st : SecurityState) (now : Nat) (req : Req) :
    Resp × SecurityState :=
  if req.method = "GET" ∧ req.path = "/api/security/blocked-ips" then
    let l := getBlockedIPs st now
    (⟨200, .blockedList l.length l⟩, st)
  else if req.method = "POST" ∧ req.path = "/api/security/unblock" then
    unblockRoute env st now req
  else if req.method = "POST" ∧ req.path = "/api/appeals" then
    (⟨200, .text "appeal"⟩, st)
  else if honeypotPaths.contains req.path then
    (⟨404, .text "Not Found"⟩,
      blockIPState st now (getClientIp req) 1440 ("Honeypot triggered: " ++ req.path))
  else (⟨200, .text "static"⟩, st)

/-- One full request through the server: the middleware chain, then — only
if every layer passed — the route layer. -/
def handleRequest (env : Env) (st : SecurityState) (now : Nat) (req : Req) :
    Resp × SecurityState :=
  match runChain st now req with
  | .halt resp st1 => (resp, st1)
  | .next st1 => routeDispatch env st1 now req

/-! ## Runs of the flood detector over a request sequence -/

/-- The per-request outcomes of `connectionFloodDetection` alone, fed a list
of arrival instants of the same request. -/
def floodResults (req : Req) : SecurityState → List Nat → List StepOut
  | _, [] => []
  | st, t :: ts =>
    let r := connectionFloodDetection st t req
    r :: floodResults req (stateOf r) ts

/-- The state after running `connectionFloodDetection` at each instant. -/
def floodEnd (req : Req) : SecurityState → List Nat → SecurityState
  | st, [] => st
  | st, t :: ts => floodEnd req (stateOf (connectionFloodDetection st t req)) ts

/-- Did a step let the request through? -/
def isNext : StepOut → Bool
  | .next _ => true
  | .halt _ _ => false

end DWC

namespace DWC

/-! ## Auxiliary definitions used by the theorems and their witnesses -/

/-- The live ban expiry the enforcement gate acts on: the Redis read when
Redis is available (a TTL key is visible while `now < expiry`), else the
in-memory record (treated as live while `now ≤ expiry`). -/
def liveBanExpiry (st : SecurityState) (now : Nat) (ip : String) : Option Nat :=
  if st.redisAvailable then
    (lookupKey st.redisBlocked ip).bind (fun e => if now < e then some e else none)
  else
    (lookupKey st.memBlocked ip).bind (fun e => if now ≤ e then some e else none)

/-- The ban records that are currently live across both backing stores —
what the specification's `listBans()` promises to return (origin and expiry;
the recorded reason is not even stored by either backing write, so only
these two components are comparable). -/
def specLiveBans (st : SecurityState) (now : Nat) : List (String × Nat) :=
  st.redisBlocked.filter (fun kv => decide (now < kv.2)) ++
    st.memBlocked.filter (fun kv => decide (now < kv.2))

/-- A right-fold of object layers: `chainObj [k1, …, kn] v` is the body
`{"k1": {"k2": … {"kn": v} … }}`. -/
def chainObj (keys : List String) (v : Json) : Json :=
  keys.foldr (fun k acc => .obj [(k, acc)]) v

/-- A straight-line nesting of depth `n` around a number. -/
def nestK : Nat → Json
  | 0 => .num 1
  | n + 1 => .obj [("k", nestK n)]

/-- The depth-11 body of the specification's concrete scenario. -/
def deepSpecBody : Json :=
  chainObj ["a", "b", "c", "d", "e", "f", "g", "h", "i", "j", "k"] (.num 1)

/-- A cyclic object graph: one container node that is its own only child. -/
def cycG : ObjGraph := ⟨fun _ => true, fun _ => [0]⟩

/-- The empty security state (fresh process, no Redis configured). -/
def st0 : SecurityState := ⟨false, [], [], [], [], [], 0, [], []⟩

/-- An environment with a configured admin secret. -/
def envA : Env := ⟨some "s3cret"⟩

/-- A request with a disallowed verb aimed at a honeypot path. -/
def reqTrace : Req :=
  ⟨"TRACE", "/admin", [("user-agent", "Mozilla/5.0")], some "198.51.100.9", none, 0, []⟩

/-- A clean GET of a honeypot path from an untrusted (non-Cloudflare) peer. -/
def reqWp : Req :=
  ⟨"GET", "/wp-admin", [("user-agent", "Mozilla/5.0")], some "198.51.100.9", none, 0, []⟩

/-- A clean API request used for the flood runs. -/
def reqApi : Req :=
  ⟨"GET", "/api/data", [("user-agent", "Mozilla/5.0")], some "198.51.100.7", none, 0, []⟩

/-- An untrusted peer presenting a forged `cf-connecting-ip`. -/
def reqSpoof : Req :=
  ⟨"GET", "/", [("cf-connecting-ip", "1.2.3.4"), ("user-agent", "Mozilla/5.0")],
    some "203.0.113.5", none, 0, []⟩

/-- The same untrusted peer with a different forged header value. -/
def reqSpoof2 : Req :=
  ⟨"GET", "/", [("cf-connecting-ip", "9.9.9.9"), ("user-agent", "curlish")],
    some "203.0.113.5", none, 0, []⟩

/-- An API request whose header value embeds CR LF. -/
def reqApiCRLF : Req :=
  ⟨"GET", "/api/data", [("user-agent", "Mozilla/5.0"), ("x-evil", "a\r\nb")],
    some "198.51.100.9", none, 0, []⟩

/-- A **non**-API request whose header value embeds CR LF. -/
def reqRootCRLF : Req :=
  ⟨"GET", "/", [("user-agent", "Mozilla/5.0"), ("x-evil", "a\r\nb")],
    some "198.51.100.9", none, 0, []⟩

/-- A POST whose parsed body is the depth-11 scenario body. -/
def reqDeep : Req :=
  ⟨"POST", "/api/appeals", [("user-agent", "Mozilla/5.0")], some "198.51.100.9",
    some deepSpecBody, 200, []⟩

/-- The same POST with a depth-10 body. -/
def reqDepth10 : Req :=
  ⟨"POST", "/api/appeals", [("user-agent", "Mozilla/5.0")], some "198.51.100.9",
    some (nestK 10), 200, []⟩

/-- An unblock call: `POST /api/security/unblock {"ip": …, "adminKey": …}`. -/
def mkUnblockReq (key : String) (ip : String) : Req :=
  ⟨"POST", "/api/security/unblock", [("user-agent", "Mozilla/5.0")], some "198.51.100.9",
    some (.obj [("ip", .str ip), ("adminKey", .str key)]), 60, []⟩

/-- A plain GET from origin `203.0.113.9` (used to probe the gate). -/
def reqFrom2039 : Req :=
  ⟨"GET", "/api/data", [("user-agent", "Mozilla/5.0")], some "203.0.113.9", none, 0, []⟩

/-- A state with one live in-memory ban for `203.0.113.9`. -/
def stBanned : SecurityState := ⟨false, [], [("203.0.113.9", 3600000)], [], [], [], 0, [], []⟩

/-- A state whose only live ban sits in Redis. -/
def stRedis : SecurityState := ⟨true, [("203.0.113.7", 500000)], [], [], [], [], 0, [], []⟩

/-- A memory-mode state with one expired and one live ban. -/
def stMemMix : SecurityState :=
  ⟨false, [], [("1.2.3.4", 100), ("5.6.7.8", 999999)], [], [], [], 0, [], []⟩

/-- The instants of the first flood burst: 31 requests inside one window. -/
def burst1 : List Nat := List.range 31

/-- The instants of the second burst, after the first 30-minute ban
(expiring at `30 + 1800000 = 1800030`) has lapsed. -/
def burst2 : List Nat := (List.range 31).map (fun n => n + 2000000)

/-- A request from the banned socket `203.0.113.9` carrying a forged
forwarded-IP header. -/
def reqBannedSpoof : Req :=
  ⟨"GET", "/api/data", [("x-forwarded-for", "8.8.8.8"), ("user-agent", "Mozilla/5.0")],
    some "203.0.113.9", none, 0, []⟩

end DWC

namespace DWC

/-! ## Map lemmas -/

/-- Reading back the key just written. -/
theorem lookupKey_setKey_self {α : Type} (m : List (String × α)) (k : String) (v : α) :
    lookupKey (setKey m k v) k = some v := by
  induction m with
  | nil => simp [setKey, lookupKey]
  | cons kv rest ih =>
    by_cases h : kv.1 = k
    · simp [setKey, lookupKey, h]
    · simp [setKey, lookupKey, h, ih]

/-- Overwriting a key twice keeps only the second write. -/
theorem setKey_setKey {α : Type} (m : List (String × α)) (k : String) (v w : α) :
    setKey (setKey m k v) k w = setKey m k w := by
  induction m with
  | nil => simp [setKey]
  | cons kv rest ih =>
    by_cases h : kv.1 = k
    · simp [setKey, h]
    · simp [setKey, h, ih]

/-- Writing back the value already present changes nothing. -/
theorem setKey_of_lookup_eq {α : Type} (m : List (String × α)) (k : String) (v : α)
    (h : lookupKey m k = some v) : setKey m k v = m := by
  induction m with
  | nil => simp [lookupKey] at h
  | cons kv rest ih =>
    obtain ⟨k1, v1⟩ := kv
    by_cases hk : k1 = k
    · subst hk
      simp [lookupKey] at h
      simp [setKey, h]
    · simp [lookupKey, hk] at h
      simp [setKey, hk, ih h]

/-! ## Fold-max lemmas -/

/-- Folding `max` from an accumulator. -/
theorem foldl_max_acc (l : List Nat) : ∀ a : Nat, l.foldl max a = max a (l.foldl max 0) := by
  induction l with
  | nil => intro a; simp
  | cons b l ih =>
    intro a
    simp only [List.foldl_cons]
    rw [ih (max a b), ih (max 0 b)]
    omega

/-- `foldl max 0` over a cons. -/
theorem foldl_max_cons (b : Nat) (l : List Nat) :
    (b :: l).foldl max 0 = max b (l.foldl max 0) := by
  simp only [List.foldl_cons]
  rw [foldl_max_acc]
  omega

/-- A fold of values all bounded by `c` is bounded by `c`. -/
theorem foldl_max_le (l : List Nat) (c : Nat) (h : ∀ x ∈ l, x ≤ c) : l.foldl max 0 ≤ c := by
  induction l with
  | nil => simp
  | cons b l ih =>
    rw [foldl_max_cons]
    have hb := h b (by simp)
    have hl := ih (fun x hx => h x (by simp [hx]))
    omega

/-! ## The depth characterization -/

/-- `trueDepthFields` is `trueDepthElems` over the field values. -/
theorem trueDepthFields_eq (fs : List (String × Json)) :
    trueDepthFields fs = trueDepthElems (fs.map Prod.snd) := by
  induction fs with
  | nil => rfl
  | cons f rest ih => simp [trueDepthFields, trueDepthElems, ih]

/-- Capping each branch at 21 and then maximizing is maximizing and then
capping (for a nonempty list of children at depth `d`). -/
theorem capped_max_elems (d : Nat) (es : List Json) :
    es ≠ [] →
    ((es.map (fun c => min (d + 1 + trueDepth c) 21)).foldl max 0) =
      min (d + trueDepthElems es) 21 := by
  induction es with
  | nil => intro h; exact absurd rfl h
  | cons e rest ih =>
    intro _
    by_cases hr : rest = []
    · subst hr
      simp [trueDepthElems, foldl_max_cons]
      omega
    · have := ih hr
      simp only [List.map_cons, foldl_max_cons, this, trueDepthElems]
      omega

/-- The central correspondence: at any reachable `depth ≤ 21`, the code's
`getObjectDepth` computes the specification's nesting depth, capped by the
recursion guard at 21. -/
theorem depthGo_eq_min (f : Nat) :
    ∀ (j : Json) (d : Nat), f = 21 - d → d ≤ 21 →
      depthGo f j d = min (d + trueDepth j) 21 := by
  induction f with
  | zero =>
    intro j d hf hd
    have : d = 21 := by omega
    subst this
    simp [depthGo]
  | succ f ih =>
    intro j d hf hd
    have hd20 : d ≤ 20 := by omega
    have hf' : f = 21 - (d + 1) := by omega
    have hd1 : d + 1 ≤ 21 := by omega
    cases j with
    | null => simp [depthGo, isContainerJson, trueDepth]; omega
    | bool b => simp [depthGo, isContainerJson, trueDepth]; omega
    | num n => simp [depthGo, isContainerJson, trueDepth]; omega
    | str s => simp [depthGo, isContainerJson, trueDepth]; omega
    | arr es =>
      cases es with
      | nil => simp [depthGo, isContainerJson, jsonKids, trueDepth, trueDepthElems]; omega
      | cons e rest =>
        have hkid : ∀ c ∈ (e :: rest), depthGo f c (d + 1) = min (d + 1 + trueDepth c) 21 :=
          fun c _ => ih c (d + 1) hf' hd1
        simp only [depthGo, isContainerJson, jsonKids, trueDepth]
        rw [List.map_congr_left hkid]
        have hne : (e :: rest) ≠ ([] : List Json) := by simp
        rw [capped_max_elems d (e :: rest) hne]
        rfl
    | obj fs =>
      cases fs with
      | nil => simp [depthGo, isContainerJson, jsonKids, trueDepth, trueDepthFields]; omega
      | cons g rest =>
        have hkid : ∀ c ∈ ((g :: rest).map Prod.snd),
            depthGo f c (d + 1) = min (d + 1 + trueDepth c) 21 :=
          fun c _ => ih c (d + 1) hf' hd1
        simp only [depthGo, isContainerJson, jsonKids, trueDepth]
        rw [List.map_congr_left hkid]
        have hne : ((g :: rest).map Prod.snd) ≠ ([] : List Json) := by simp
        rw [capped_max_elems d ((g :: rest).map Prod.snd) hne]
        rw [trueDepthFields_eq]
        rfl

/-- `getObjectDepth` from depth 0 is the true nesting depth capped at 21. -/
theorem getObjectDepth_eq_min (j : Json) : getObjectDepth j 0 = min (trueDepth j) 21 := by
  have := depthGo_eq_min 21 j 0 (by omega) (by omega)
  simpa [getObjectDepth] using this

/-- On an arbitrary (possibly cyclic) object graph, the fuelled walk never
exceeds 21 when it starts within the guard's allowance. -/
theorem depthGoG_le (g : ObjGraph) (f : Nat) :
    ∀ (n d : Nat), f + d ≤ 21 → depthGoG g f n d ≤ 21 := by
  induction f with
  | zero => intro n d h; simp only [depthGoG]; omega
  | succ f ih =>
    intro n d h
    simp only [depthGoG]
    by_cases hc : g.isCont n = false
    · rw [if_pos hc]; omega
    · rw [if_neg hc]
      by_cases he : ((g.kids n).map (fun c => depthGoG g f c (d + 1))).isEmpty = true
      · rw [if_pos he]; omega
      · rw [if_neg he]
        apply foldl_max_le
        intro x hx
        rcases List.mem_map.mp hx with ⟨c, _, rfl⟩
        exact ih c (d + 1) (by omega)

end DWC

namespace DWC

/-- **C6** (payload depth guard boundary): for every POST/PUT/PATCH request
whose declared size passes the 10240-byte check and whose parsed JSON body
is `b`, `payloadBombProtection` answers 400 and records a 60-minute ban
exactly when the body's nesting depth exceeds 10; a body of depth at most
10 (in particular exactly 10) passes this detector untouched. -/
theorem payloadDepthBoundary (st : SecurityState) (now : Nat) (req : Req) (b : Json)
    (hm : req.method = "POST" ∨ req.method = "PUT" ∨ req.method = "PATCH")
    (hcl : req.contentLength ≤ 10240)
    (hb : req.body = some b) :
    (trueDepth b > 10 →
      payloadBombProtection st now req =
        .halt ⟨400, .errJson "Invalid request structure"⟩
          (blockIPState st now (getClientIp req) 60 "Deeply nested payload (potential attack)")) ∧
    (trueDepth b ≤ 10 → payloadBombProtection st now req = .next st) := by
  have hng : ¬ (req.contentLength > 10240) := by omega
  constructor
  · intro hgt
    have hcont : isContainerJson b = true := by
      cases b with
      | null => simp [trueDepth] at hgt
      | bool x => simp [trueDepth] at hgt
      | num x => simp [trueDepth] at hgt
      | str x => simp [trueDepth] at hgt
      | arr es => rfl
      | obj fs => rfl
    have hd : getObjectDepth b 0 > 10 := by rw [getObjectDepth_eq_min]; omega
    simp [payloadBombProtection, hb, hm, hng, hcont, hd]
  · intro hle
    have hd : ¬ (getObjectDepth b 0 > 10) := by rw [getObjectDepth_eq_min]; omega
    by_cases hcont : isContainerJson b = true
    · simp [payloadBombProtection, hb, hm, hng, hcont, hd]
    · simp [payloadBombProtection, hb, hm, hng, hcont]

/-- Witness for C6: the specification's depth-11 scenario body is rejected
with 400 and a 60-minute ban, and a depth-10 body passes. -/
theorem payloadDepthBoundaryWitness :
    trueDepth deepSpecBody > 10 ∧
    payloadBombProtection st0 0 reqDeep =
      .halt ⟨400, .errJson "Invalid request structure"⟩
        (blockIPState st0 0 (getClientIp reqDeep) 60 "Deeply nested payload (potential attack)") ∧
    trueDepth (nestK 10) ≤ 10 ∧
    payloadBombProtection st0 0 reqDepth10 = .next st0 :=
  ⟨by decide,
   (payloadDepthBoundary st0 0 reqDeep deepSpecBody (Or.inl rfl) (by decide) rfl).1 (by decide),
   by decide,
   (payloadDepthBoundary st0 0 reqDepth10 (nestK 10) (Or.inl rfl) (by decide) rfl).2 (by decide)⟩

/-- **C10** (termination and bound of the depth computation): the depth walk
is total on arbitrary object graphs — including cyclic ones, on which
`getObjectDepthG` is defined by recursion on the guard's remaining
allowance alone — its result never exceeds 21 from any start depth within
the allowance, and every body nested deeper than 10 levels, however deep,
is still reported deeper than 10. -/
theorem depthComputationTotalAndBounded :
    (∀ (g : ObjGraph) (n d : Nat), d ≤ 21 → getObjectDepthG g n d ≤ 21) ∧
    (∀ j : Json, trueDepth j > 10 → getObjectDepth j 0 > 10) := by
  constructor
  · intro g n d hd
    exact depthGoG_le g (21 - d) n d (by omega)
  · intro j hj
    rw [getObjectDepth_eq_min]
    omega

/-- Witness for C10: the one-node cyclic graph stays within the bound (the
walk in fact returns exactly 21 there), and a straight-line body of depth 30
is still reported deeper than 10. -/
theorem depthComputationTotalAndBoundedWitness :
    getObjectDepthG cycG 0 0 ≤ 21 ∧ getObjectDepth (nestK 30) 0 > 10 :=
  ⟨depthComputationTotalAndBounded.1 cycG 0 0 (by omega),
   depthComputationTotalAndBounded.2 (nestK 30) (by decide)⟩

end DWC

namespace DWC

/-! ## Flood-detector lemmas -/

/-- `blockIP` always appends exactly one entry to the call log. -/
theorem blockIPState_banLog (st : SecurityState) (now : Nat) (ip : String) (d : Nat)
    (r : String) : (blockIPState st now ip d r).banLog = st.banLog ++ [(ip, d, r)] := by
  by_cases h : st.redisAvailable <;> simp [blockIPState, h]

/-- The very first API request from an unseen origin creates its tracker
with `count = 1` and passes. -/
theorem flood_first_step (st : SecurityState) (t : Nat) (req : Req)
    (hapi : startsWithApi req = true)
    (hnone : lookupKey st.tracking (getClientIp req) = none) :
    connectionFloodDetection st t req =
      .next { st with tracking := setKey st.tracking (getClientIp req) ⟨1, t, 0, none⟩ } := by
  simp [connectionFloodDetection, hapi, hnone]

/-- A request inside the window with a same-window tracker below the
threshold just counts up (warning past 20) and passes. -/
theorem flood_pass_step (st : SecurityState) (s t k : Nat) (fp : Option String) (req : Req)
    (hapi : startsWithApi req = true)
    (hlk : lookupKey st.tracking (getClientIp req) = some ⟨k, t, 0, fp⟩)
    (hwin : s - t ≤ 10000) (hk : k < 30) :
    connectionFloodDetection st s req =
      .next { st with
        tracking := setKey st.tracking (getClientIp req) ⟨k + 1, t, 0, fp⟩,
        warnLog := st.warnLog ++ (if k + 1 > 20 then [getClientIp req] else []) } := by
  have h1 : ¬ (s - t > 10000) := by omega
  have h2 : ¬ (k + 1 > 30) := by omega
  by_cases hw : k + 1 > 20
  · simp [connectionFloodDetection, hapi, hlk, h1, h2, hw]
  · simp [connectionFloodDetection, hapi, hlk, h1, h2, hw]

/-- The 31st request of a window: the tracker holds `count = 30`, the
request is rejected with 429, the violation counter becomes 1 and a
30-minute ban is recorded. -/
theorem flood_ban_step (st : SecurityState) (s t : Nat) (fp : Option String) (req : Req)
    (hapi : startsWithApi req = true)
    (hlk : lookupKey st.tracking (getClientIp req) = some ⟨30, t, 0, fp⟩)
    (hwin : s - t ≤ 10000) :
    connectionFloodDetection st s req =
      .halt ⟨429, .errJson "Request flood detected. IP blocked."⟩
        (blockIPState
          { st with tracking := setKey st.tracking (getClientIp req) ⟨31, t, 1, fp⟩ }
          s (getClientIp req) 30 "Connection flood: 31 requests in 10 seconds") := by
  have h1 : ¬ (s - t > 10000) := by omega
  have hts : toString (31 : Nat) = "31" := by decide
  simp [connectionFloodDetection, hapi, hlk, h1, hts]

/-- Running the detector over instants that stay inside the window of a
tracker holding `(k, t, 0)` with `k + n ≤ 30` requests in total: everything
passes, the count advances by the number of requests, one warning is logged
per request whose count lands in 21–30, and no ban is recorded. -/
theorem flood_run_pass (req : Req) (hapi : startsWithApi req = true) :
    ∀ (ts : List Nat) (st : SecurityState) (k t : Nat) (fp : Option String),
      lookupKey st.tracking (getClientIp req) = some ⟨k, t, 0, fp⟩ →
      (∀ s ∈ ts, s - t ≤ 10000) →
      k + ts.length ≤ 30 →
      (floodResults req st ts).all isNext = true ∧
      (floodEnd req st ts).tracking =
        setKey st.tracking (getClientIp req) ⟨k + ts.length, t, 0, fp⟩ ∧
      (floodEnd req st ts).warnLog =
        st.warnLog ++ List.replicate (k + ts.length - max k 20) (getClientIp req) ∧
      (floodEnd req st ts).banLog = st.banLog := by
  intro ts
  induction ts with
  | nil =>
    intro st k t fp hlk hwin hle
    refine ⟨rfl, ?_, ?_, rfl⟩
    · simp only [floodEnd, List.length_nil, Nat.add_zero]
      exact (setKey_of_lookup_eq st.tracking (getClientIp req) _ hlk).symm
    · simp only [floodEnd, List.length_nil, Nat.add_zero]
      have e : k - max k 20 = 0 := by omega
      rw [e]
      simp
  | cons s ts ih =>
    intro st k t fp hlk hwin hle
    have hk : k < 30 := by
      have := hle
      simp [List.length_cons] at this
      omega
    have hstep := flood_pass_step st s t k fp req hapi hlk (hwin s (by simp)) hk
    have hlk1 : lookupKey
        ({ st with
          tracking := setKey st.tracking (getClientIp req) ⟨k + 1, t, 0, fp⟩,
          warnLog := st.warnLog ++ (if k + 1 > 20 then [getClientIp req] else []) }).tracking
        (getClientIp req) = some ⟨k + 1, t, 0, fp⟩ :=
      lookupKey_setKey_self st.tracking (getClientIp req) _
    obtain ⟨ha, htr, hwl, hbl⟩ := ih _ (k + 1) t fp hlk1
      (fun x hx => hwin x (by simp [hx])) (by simp at hle ⊢; omega)
    have hEnd : floodEnd req st (s :: ts) =
        floodEnd req
          { st with
            tracking := setKey st.tracking (getClientIp req) ⟨k + 1, t, 0, fp⟩,
            warnLog := st.warnLog ++ (if k + 1 > 20 then [getClientIp req] else []) } ts := by
      simp [floodEnd, hstep, stateOf]
    refine ⟨?_, ?_, ?_, ?_⟩
    · simp [floodResults, hstep, stateOf, isNext, ha]
    · rw [hEnd, htr]
      simp only [setKey_setKey]
      have e1 : k + 1 + ts.length = k + (s :: ts).length := by simp; omega
      rw [e1]
    · rw [hEnd, hwl]
      simp only [List.append_assoc]
      congr 1
      by_cases hw : k + 1 > 20
      · rw [if_pos hw]
        have e2 : k + 1 + ts.length - max (k + 1) 20 = ts.length := by omega
        have e3 : k + (s :: ts).length - max k 20 = ts.length + 1 := by simp; omega
        rw [e2, e3, List.replicate_succ]
        rfl
      · rw [if_neg hw]
        have e4 : k + 1 + ts.length - max (k + 1) 20 = k + (s :: ts).length - max k 20 := by
          simp; omega
        rw [e4]
        rfl
    · rw [hEnd, hbl]

end DWC

namespace DWC

/-- **C1** (connection-flood threshold boundary): starting from a state with
no tracker for the origin, 31 API requests whose instants all lie within
10 seconds of the first produce: no rejection on the first 30 (so 30
requests in a window yield zero rejections), exactly one warning per
request in the 21–30 tier, and a 429 rejection with one recorded ban on the
31st. -/
theorem floodThresholdBoundary (req : Req) (st : SecurityState) (t : Nat)
    (rest : List Nat) (s31 : Nat)
    (hapi : startsWithApi req = true)
    (hnone : lookupKey st.tracking (getClientIp req) = none)
    (hwin : ∀ s ∈ rest, s - t ≤ 10000) (hw31 : s31 - t ≤ 10000)
    (hlen : rest.length = 29) :
    (floodResults req st (t :: rest)).all isNext = true ∧
    (floodEnd req st (t :: rest)).warnLog =
      st.warnLog ++ List.replicate 10 (getClientIp req) ∧
    ∃ stF,
      connectionFloodDetection (floodEnd req st (t :: rest)) s31 req =
        .halt ⟨429, .errJson "Request flood detected. IP blocked."⟩ stF ∧
      stF.banLog =
        st.banLog ++ [(getClientIp req, 30, "Connection flood: 31 requests in 10 seconds")] := by
  have hfirst := flood_first_step st t req hapi hnone
  have hlk1 : lookupKey
      ({ st with tracking := setKey st.tracking (getClientIp req) ⟨1, t, 0, none⟩ }
        : SecurityState).tracking (getClientIp req) = some ⟨1, t, 0, none⟩ :=
    lookupKey_setKey_self st.tracking (getClientIp req) _
  obtain ⟨ha, htr, hwl, hbl⟩ := flood_run_pass req hapi rest _ 1 t none hlk1 hwin (by omega)
  have hEnd : floodEnd req st (t :: rest) =
      floodEnd req
        { st with tracking := setKey st.tracking (getClientIp req) ⟨1, t, 0, none⟩ } rest := by
    simp [floodEnd, hfirst, stateOf]
  refine ⟨?_, ?_, ?_⟩
  · simp [floodResults, hfirst, stateOf, isNext, ha]
  · rw [hEnd, hwl, hlen]
    have e : 1 + 29 - max 1 20 = 10 := by omega
    rw [e]
  · have hlkM : lookupKey (floodEnd req st (t :: rest)).tracking (getClientIp req) =
        some ⟨30, t, 0, none⟩ := by
      rw [hEnd, htr, hlen]
      exact lookupKey_setKey_self _ _ _
    have hban := flood_ban_step (floodEnd req st (t :: rest)) s31 t none req hapi hlkM hw31
    refine ⟨_, hban, ?_⟩
    rw [blockIPState_banLog]
    have hb : (floodEnd req st (t :: rest)).banLog = st.banLog := by rw [hEnd, hbl]
    simp [hb]

/-- Witness for C1: the concrete burst `0, 5 ×29, 9000` from a fresh state. -/
theorem floodThresholdBoundaryWitness :
    (floodResults reqApi st0 (0 :: List.replicate 29 5)).all isNext = true ∧
    (floodEnd reqApi st0 (0 :: List.replicate 29 5)).warnLog =
      st0.warnLog ++ List.replicate 10 (getClientIp reqApi) ∧
    ∃ stF,
      connectionFloodDetection (floodEnd reqApi st0 (0 :: List.replicate 29 5)) 9000 reqApi =
        .halt ⟨429, .errJson "Request flood detected. IP blocked."⟩ stF ∧
      stF.banLog = st0.banLog ++
        [(getClientIp reqApi, 30, "Connection flood: 31 requests in 10 seconds")] :=
  floodThresholdBoundary reqApi st0 0 (List.replicate 29 5) 9000
    (by decide) (by decide) (by decide) (by decide) (by decide)

set_option maxRecDepth 4000 in
/-- **C2** (escalation defeated by the window reset): the claim says
`violations` never decreases until the record is garbage-collected and that
the k-th flood ban lasts `min(k*30, 1440)` minutes.  The code instead
resets `violations` to 0 whenever the 10-second window rolls over
(advanced-security.ts line 180).  Concretely: after the first 31-request
burst the tracker holds `violations = 1` and a 30-minute ban (expiring at
instant 1800030); at instant 2000000 the ban has lapsed (the gate passes),
but the origin's very next request resets `violations` to 0 — a decrease
with no garbage collection, the record is 33 minutes old — so the second
burst's ban is again 30 minutes, not the claimed `min(2*30, 1440) = 60`. -/
theorem floodEscalationResetBug :
    (floodEnd reqApi st0 burst1).tracking = [("198.51.100.7", ⟨31, 0, 1, none⟩)] ∧
    isNext (ipBlockingMiddleware (floodEnd reqApi st0 burst1) 2000000 reqApi) = true ∧
    (floodEnd reqApi st0 (burst1 ++ [2000000])).tracking =
      [("198.51.100.7", ⟨1, 2000000, 0, none⟩)] ∧
    ((floodEnd reqApi st0 (burst1 ++ burst2)).banLog.map (fun b => b.2.1)) = [30, 30] ∧
    min (2 * 30) 1440 = 60 := by
  decide

end DWC

namespace DWC

set_option maxHeartbeats 1600000 in
/-- **C3 counterexample**: the claim says a honeypot-path request with *any*
verb yields 404 and a 1440-minute ban, detectors 2–10 being bypassed
because decoy routes intercept first.  In the source the decoy routes are
registered *after* the `app.use` middleware (index.ts registers
`setupHoneypot` after the chain, and Express runs middleware before
routes), so a `TRACE /admin` is intercepted by HTTP-method validation: it
answers 405 — not 404 — and records a 15-minute ban — not 1440. -/
theorem honeypotBypassCounterexample :
    honeypotPaths.contains "/admin" = true ∧
    handleRequest ⟨none⟩ st0 0 reqTrace =
      (⟨405, .errJson "Method not allowed"⟩,
        { st0 with banLog := [("198.51.100.9", 15, "Invalid HTTP method: TRACE")],
                   memBlocked := [("198.51.100.9", 900000)] }) ∧
    (405 : Nat) ≠ 404 := by
  refine ⟨by decide, by decide, by decide⟩

/-- **C3 (amended)**: honeypot routes run *after* the middleware chain, not
before it.  For every request to a honeypot path on which every middleware
layer passes, the server answers exactly 404 `"Not Found"` and makes
exactly one ban call, of 1440 minutes, for the resolved origin. -/
theorem honeypotAfterChain (env : Env) (st st1 : SecurityState) (now : Nat) (req : Req)
    (hrun : runChain st now req = .next st1)
    (hp : honeypotPaths.contains req.path = true) :
    handleRequest env st now req =
      (⟨404, .text "Not Found"⟩,
        blockIPState st1 now (getClientIp req) 1440 ("Honeypot triggered: " ++ req.path)) ∧
    (blockIPState st1 now (getClientIp req) 1440 ("Honeypot triggered: " ++ req.path)).banLog =
      st1.banLog ++ [(getClientIp req, 1440, "Honeypot triggered: " ++ req.path)] := by
  have hmem : req.path ∈ honeypotPaths := by simpa using hp
  have h1 : req.path ≠ "/api/security/blocked-ips" := by
    intro h; rw [h] at hmem; revert hmem; decide
  have h2 : req.path ≠ "/api/security/unblock" := by
    intro h; rw [h] at hmem; revert hmem; decide
  have h3 : req.path ≠ "/api/appeals" := by
    intro h; rw [h] at hmem; revert hmem; decide
  constructor
  · unfold handleRequest
    rw [hrun]
    simp [routeDispatch, h1, h2, h3, hp, hmem]
  · exact blockIPState_banLog _ _ _ _ _

set_option maxHeartbeats 1600000 in
/-- Witness for the amended C3: a clean `GET /wp-admin` from an untrusted
peer passes the whole chain and receives 404 with one 1440-minute ban. -/
theorem honeypotAfterChainWitness :
    runChain st0 0 reqWp = .next st0 ∧
    handleRequest ⟨none⟩ st0 0 reqWp =
      (⟨404, .text "Not Found"⟩,
        blockIPState st0 0 (getClientIp reqWp) 1440 ("Honeypot triggered: " ++ reqWp.path)) :=
  ⟨by decide, (honeypotAfterChain ⟨none⟩ st0 st0 0 reqWp (by decide) (by decide)).1⟩

/-- **C4** (spoofing resistance of the identity resolver): when the
transport-layer peer is not a Cloudflare address (nor loopback), the
resolved origin is the socket address whatever forwarded-IP headers say;
a request presenting such headers is rejected 403 by
`trustCloudflareProxy`; and any two requests from the same untrusted socket
address resolve to the same origin, whatever their headers. -/
theorem spoofedHeadersNeverTrusted (req : Req)
    (h : isCloudflareIP (remoteIp req) = false) :
    getClientIp req = remoteIp req ∧
    (∀ (st : SecurityState) (now : Nat),
      (truthy (headerVal req "cf-connecting-ip") ||
        truthy (headerVal req "x-forwarded-for")) = true →
      trustCloudflareProxy st now req = .halt ⟨403, .errJson "Access denied"⟩ st) ∧
    (∀ req2 : Req, remoteIp req2 = remoteIp req → getClientIp req2 = getClientIp req) := by
  refine ⟨?_, ?_, ?_⟩
  · simp [getClientIp, h]
  · intro st now ht
    simp [trustCloudflareProxy, h, ht]
  · intro req2 he
    have h2 : isCloudflareIP (remoteIp req2) = false := by rw [he]; exact h
    simp [getClientIp, h, h2, he]

/-- Witness for C4: socket `203.0.113.5` (not a Cloudflare range) with a
forged `cf-connecting-ip` — rejected 403, origin stays the socket address,
and a header change does not change the resolved origin. -/
theorem spoofedHeadersNeverTrustedWitness :
    isCloudflareIP (remoteIp reqSpoof) = false ∧
    getClientIp reqSpoof = remoteIp reqSpoof ∧
    trustCloudflareProxy st0 0 reqSpoof = .halt ⟨403, .errJson "Access denied"⟩ st0 ∧
    getClientIp reqSpoof2 = getClientIp reqSpoof :=
  ⟨by decide,
   (spoofedHeadersNeverTrusted reqSpoof (by decide)).1,
   (spoofedHeadersNeverTrusted reqSpoof (by decide)).2.1 st0 0 (by decide),
   (spoofedHeadersNeverTrusted reqSpoof (by decide)).2.2 reqSpoof2 (by decide)⟩

set_option maxHeartbeats 1600000 in
/-- **C5 counterexample**: origin `203.0.113.9` holds a live ban, yet its
request carrying a forged forwarded-IP header from the untrusted socket is
rejected by the identity resolver with 403 `"Access denied"` — a body with
no `retryAfter` field — though the claim promises a `retryAfter` body on
every request from a banned origin.  (The state is still untouched and no
later detector runs.) -/
theorem banGateSpoofCounterexample :
    liveBanExpiry stBanned 0 (getClientIp reqBannedSpoof) = some 3600000 ∧
    handleRequest envA stBanned 0 reqBannedSpoof =
      (⟨403, .errJson "Access denied"⟩, stBanned) ∧
    (∀ retry : Nat,
      (⟨403, .errJson "Access denied"⟩ : Resp) ≠ ⟨403, .errRetry blockedMsg retry⟩) := by
  refine ⟨by decide, by decide, ?_⟩
  intro retry h
  simp at h

/-- **C5 (amended)** (ban enforcement gate): a request the identity
resolver lets through (i.e. not itself rejected for spoofed headers),
coming from an origin with a live ban, is answered 403 with
`retryAfter` equal to the remaining ban time rounded up to whole minutes,
and the state is completely untouched — no later detector runs, no counter
of any kind moves. -/
theorem banGateShortCircuit (env : Env) (st : SecurityState) (now : Nat) (req : Req) (e : Nat)
    (hTrust : trustCloudflareProxy st now req = .next st)
    (hLive : liveBanExpiry st now (getClientIp req) = some e) :
    handleRequest env st now req =
      (⟨403, .errRetry blockedMsg (remainingMinutes e now)⟩, st) := by
  have hblock : ipBlockingMiddleware st now req =
      .halt ⟨403, .errRetry blockedMsg (remainingMinutes e now)⟩ st := by
    by_cases hr : st.redisAvailable = true
    · unfold liveBanExpiry at hLive
      rw [if_pos hr] at hLive
      cases hlk : lookupKey st.redisBlocked (getClientIp req) with
      | none => rw [hlk] at hLive; simp at hLive
      | some x =>
        rw [hlk] at hLive
        simp only [Option.some_bind] at hLive
        by_cases hlt : now < x
        · rw [if_pos hlt] at hLive
          have hx : x = e := by injection hLive
          subst hx
          simp [ipBlockingMiddleware, hr, hlk, hlt]
        · rw [if_neg hlt] at hLive; simp at hLive
    · unfold liveBanExpiry at hLive
      rw [if_neg hr] at hLive
      cases hlk : lookupKey st.memBlocked (getClientIp req) with
      | none => rw [hlk] at hLive; simp at hLive
      | some x =>
        rw [hlk] at hLive
        simp only [Option.some_bind] at hLive
        by_cases hle : now ≤ x
        · rw [if_pos hle] at hLive
          have hx : x = e := by injection hLive
          subst hx
          simp [ipBlockingMiddleware, hr, hlk, hle, (by omega : ¬ now > x)]
        · rw [if_neg hle] at hLive; simp at hLive
  have hchain : runChain st now req =
      .halt ⟨403, .errRetry blockedMsg (remainingMinutes e now)⟩ st := by
    simp only [runChain, securityChain, List.foldl_cons, List.foldl_nil, runStep,
      hTrust, hblock]
  unfold handleRequest
  rw [hchain]

set_option maxHeartbeats 1600000 in
/-- Witness for C5: origin `203.0.113.9` holds a live in-memory ban until
instant 3600000; at instant 0 its request is answered 403 with
`retryAfter = 60` minutes and the state is unchanged. -/
theorem banGateShortCircuitWitness :
    liveBanExpiry stBanned 0 (getClientIp reqFrom2039) = some 3600000 ∧
    remainingMinutes 3600000 0 = 60 ∧
    handleRequest envA stBanned 0 reqFrom2039 =
      (⟨403, .errRetry blockedMsg (remainingMinutes 3600000 0)⟩, stBanned) :=
  ⟨by decide, by decide,
   banGateShortCircuit envA stBanned 0 reqFrom2039 3600000 (by decide) (by decide)⟩

end DWC

namespace DWC

/-- **C7** (unban correctness and the missing `await`): with a wrong
credential the handler answers 403 and changes nothing; with the right
credential the live ban is removed and the gate passes the origin again;
but because `unblockIP` is called without `await`
(routes.ts line 107), the handler's `if (success)` tests a promise object
— always truthy — so the response says `success: true` even when no ban
existed (the resolved boolean, computed by `unblockIPState`, is `false`
there, and the handler's `success: false` branch is dead code).  This
contradicts the claim that the returned success value is true exactly when
a live ban existed. -/
theorem unblockMissingAwaitBug :
    unblockRoute envA stBanned 0 (mkUnblockReq "wrong" "203.0.113.9") =
      (⟨403, .errJson "Unauthorized"⟩, stBanned) ∧
    unblockRoute envA stBanned 0 (mkUnblockReq "s3cret" "203.0.113.9") =
      (⟨200, .unblockMsg true "IP 203.0.113.9 unblocked"⟩,
        { stBanned with memBlocked := [] }) ∧
    isNext (ipBlockingMiddleware { stBanned with memBlocked := [] } 0 reqFrom2039) = true ∧
    (unblockIPState st0 0 "203.0.113.9").1 = false ∧
    unblockRoute envA st0 0 (mkUnblockReq "s3cret" "203.0.113.9") =
      (⟨200, .unblockMsg true "IP 203.0.113.9 unblocked"⟩, st0) := by
  decide

/-- **C8 counterexample**: with Redis configured, a live Redis-stored ban
exists, yet `getBlockedIPs` returns the empty list — the listing is not
complete across backing stores as the claim states. -/
theorem listBansRedisCounterexample :
    specLiveBans stRedis 0 = [("203.0.113.7", 500000)] ∧
    getBlockedIPs stRedis 0 = [] := by
  decide

/-- **C8 (amended)**: `getBlockedIPs` lists the in-memory store only: with
Redis configured it returns the empty list even when live bans exist;
without Redis it returns exactly the in-memory records whose expiry lies in
the future, each carrying the fixed reason text `"Security violation"`
rather than the reason recorded at ban time. -/
theorem getBlockedIPsMemoryOnly (st : SecurityState) (now : Nat) :
    (st.redisAvailable = true → getBlockedIPs st now = []) ∧
    (st.redisAvailable = false →
      (getBlockedIPs st now).map (fun e => (e.ip, e.expiresAt)) =
        st.memBlocked.filter (fun kv => decide (kv.2 > now)) ∧
      ∀ e ∈ getBlockedIPs st now, e.reason = "Security violation" ∧ e.expiresAt > now) := by
  constructor
  · intro h; simp [getBlockedIPs, h]
  · intro h
    constructor
    · simp [getBlockedIPs, h, List.map_map]
      have hcomp : ((fun (e : BlockedEntry) => (e.ip, e.expiresAt)) ∘
          fun (kv : String × Nat) => (⟨kv.1, kv.2, "Security violation"⟩ : BlockedEntry)) =
          id := by
        funext kv
        rfl
      rw [hcomp, List.map_id]
    · intro e he
      simp only [getBlockedIPs, h, Bool.false_eq_true, if_false, List.mem_map,
        List.mem_filter] at he
      obtain ⟨kv, ⟨_, hgt⟩, rfl⟩ := he
      exact ⟨rfl, by simpa using hgt⟩

/-- Witness for the amended C8: memory mode with one expired and one live
record at instant 5000 — exactly the live one is listed, with the constant
reason. -/
theorem getBlockedIPsMemoryOnlyWitness :
    (getBlockedIPs stMemMix 5000).map (fun e => (e.ip, e.expiresAt)) =
      stMemMix.memBlocked.filter (fun kv => decide (kv.2 > 5000)) ∧
    ∀ e ∈ getBlockedIPs stMemMix 5000,
      e.reason = "Security violation" ∧ e.expiresAt > 5000 :=
  (getBlockedIPsMemoryOnly stMemMix 5000).2 rfl

/-- **C9 counterexample**: a request on a non-API path whose header value
carries raw CR LF passes `headerValidation` untouched — no 400, no ban —
because the detector exits early for every path not starting with `/api`,
while the claim covers every path. -/
theorem headerInjectionNonApiCounterexample :
    (reqRootCRLF.headers.any (fun kv => hasCRLF kv.2)) = true ∧
    headerValidation st0 0 reqRootCRLF = .next st0 ∧
    (stateOf (headerValidation st0 0 reqRootCRLF)).banLog = [] := by
  decide

/-- **C9 (amended)**: on API-prefixed paths a request with a raw CR or LF
byte in some header value is rejected 400 with a 360-minute ban; a request
whose header values carry no CR or LF is never rejected by this detector;
and on non-API paths the detector never rejects at all. -/
theorem headerValidationApiScope (st : SecurityState) (now : Nat) (req : Req) :
    (startsWithApi req = true → req.headers.any (fun kv => hasCRLF kv.2) = true →
      headerValidation st now req =
        .halt ⟨400, .errJson "Invalid request headers"⟩
          (blockIPState st now (getClientIp req) 360 "HTTP header injection attempt")) ∧
    (req.headers.any (fun kv => hasCRLF kv.2) = false →
      headerValidation st now req = .next st) ∧
    (startsWithApi req = false → headerValidation st now req = .next st) := by
  refine ⟨?_, ?_, ?_⟩
  · intro hapi hcr
    simp [headerValidation, hapi, hcr]
  · intro hcr
    by_cases hapi : startsWithApi req
    · simp [headerValidation, hapi, hcr]
    · simp [headerValidation, hapi]
  · intro hapi
    simp [headerValidation, hapi]

/-- Witness for the amended C9: the CR-LF header on an API path is rejected
with 400 and a 360-minute ban; a clean API request passes. -/
theorem headerValidationApiScopeWitness :
    headerValidation st0 0 reqApiCRLF =
      .halt ⟨400, .errJson "Invalid request headers"⟩
        (blockIPState st0 0 (getClientIp reqApiCRLF) 360 "HTTP header injection attempt") ∧
    headerValidation st0 0 reqApi = .next st0 :=
  ⟨(headerValidationApiScope st0 0 reqApiCRLF).1 (by decide) (by decide),
   (headerValidationApiScope st0 0 reqApi).2.1 (by decide)⟩

end DWC
